import Mathlib

/-!
Verification of the SmartTailor API subscription/account core.

This file shallowly embeds the data model and the operations of the
repository (Express routes over Mongoose models) as executable Lean
definitions and proves properties of them.

Modelling conventions:
- Dates are integers (milliseconds since the epoch), exactly the value a
  JavaScript Date object stores.  Comparisons and day arithmetic in the
  source are plain millisecond arithmetic and are translated literally.
- Calendar month/year arithmetic (setMonth, setFullYear, with rollover)
  is abstracted by function parameters; no theorem in this file depends
  on the numeric value such a computation produces, only on which fields
  an operation populates or clears.
- A Mongoose document is a structure; a collection is a list; a query
  filter is a list filter.  Falsy Javascript checks on possibly missing
  values are Option tests.
- Operations that can fail in the store (deleteMany, findByIdAndDelete)
  take boolean failure oracles; a thrown error is modelled by the
  control flow the route actually performs on an exception.
-/

namespace SmartTailor

/-- Milliseconds in one day, as written in the source (1000 * 60 * 60 * 24). -/
def dayMs : Int := 86400000

/-- Math.ceil of the real quotient num / den for den > 0, as integer
arithmetic: the negated floor division of the negated numerator (division
on Int rounds toward negative infinity for positive divisors). -/
def jsCeilDiv (num den : Int) : Int := -((-num) / den)

/-- An entry of the paymentHistory array of the user schema. -/
structure PaymentRecord where
  txRef : String
  transactionId : Option String
  amount : Int
  subscriptionType : String
  status : String
  paidAt : Int
deriving DecidableEq

/-- The pendingPayment subdocument of the user schema. -/
structure PendingPayment where
  txRef : String
  subscriptionType : String
  amount : Int
  createdAt : Int
deriving DecidableEq

/-- A tenant document of the User model (models/User.js), restricted to the
fields the verified operations read or write. -/
structure User where
  id : String
  phone : String
  password : String
  businessName : String
  address : String
  profileImage : Option String
  subscriptionType : Option String
  subscriptionStatus : Option String
  trialStartDate : Option Int
  trialEndDate : Option Int
  subscriptionStartDate : Option Int
  subscriptionEndDate : Option Int
  pendingPayment : Option PendingPayment
  paymentHistory : List PaymentRecord
  pushNotificationEnabled : Bool
  pushNotificationToken : Option String
  isAdmin : Bool
  createdAt : Option Int
deriving DecidableEq

/-- The user mutation the payment callback performs after the gateway has
verified the transaction as successful (routes/payment.js, callback route,
lines 255 to 292): set the paid tier, activate, store the computed paid
window, clear the trial window and the pending payment, and append a
record to paymentHistory.  The callback performs no lookup of an existing
history entry for the reference before pushing.  The computed start and
end of the paid window are passed in because their calendar computation
(setMonth / setFullYear) is external to the mutation. -/
def applySuccessfulPayment (u : User) (tier : String) (txRef : String)
    (transactionId : Option String) (amount : Int)
    (subStart subEnd paidAt : Int) : User :=
  { u with
    subscriptionType := some tier
    subscriptionStatus := some "active"
    subscriptionStartDate := some subStart
    subscriptionEndDate := some subEnd
    trialStartDate := none
    trialEndDate := none
    pendingPayment := none
    paymentHistory := u.paymentHistory ++
      [{ txRef := txRef, transactionId := transactionId, amount := amount,
         subscriptionType := tier, status := "successful", paidAt := paidAt }] }

/-- Number of paymentHistory entries whose txRef equals the given reference. -/
def countTxRef (h : List PaymentRecord) (r : String) : Nat :=
  (h.filter (fun p => p.txRef == r)).length

/-- A concrete freshly signed up tenant used by concrete counterexamples. -/
def sampleTrialUser : User :=
  { id := "u1", phone := "08012345678", password := "hash1"
    businessName := "Shop", address := "Lagos"
    profileImage := none
    subscriptionType := some "trial", subscriptionStatus := some "active"
    trialStartDate := some 0, trialEndDate := some (30 * dayMs)
    subscriptionStartDate := none, subscriptionEndDate := none
    pendingPayment := none, paymentHistory := []
    pushNotificationEnabled := true, pushNotificationToken := none
    isAdmin := false, createdAt := some 0 }

theorem countTxRef_append (h₁ h₂ : List PaymentRecord) (r : String) :
    countTxRef (h₁ ++ h₂) r = countTxRef h₁ r + countTxRef h₂ r := by
  simp [countTxRef, List.filter_append]

/-- C1, counterexample: the payment confirmation path is not idempotent per
transaction reference.  Processing the successful-verification callback twice
for the same reference ST-1 on a freshly signed up tenant leaves two matching
entries in paymentHistory, not exactly one, because the mutation appends
unconditionally without consulting the existing history. -/
theorem c1_second_callback_duplicates_history :
    ¬ countTxRef ((applySuccessfulPayment
         (applySuccessfulPayment sampleTrialUser "monthly" "ST-1" none 5000 0 100 0)
         "monthly" "ST-1" none 5000 0 100 0).paymentHistory) "ST-1" = 1 := by
  decide

/-- C1, amended: the payment confirmation mutation appends a history entry
unconditionally, with no check of paymentHistory for an existing entry with
the same reference; after two successful-verification callbacks with the same
txRef the history holds exactly two more entries matching that txRef than
before, so the operation is not idempotent per reference. -/
theorem c1_applyPayment_always_appends (u : User) (t₁ t₂ r : String)
    (tid₁ tid₂ : Option String) (a₁ a₂ s₁ s₂ e₁ e₂ p₁ p₂ : Int) :
    countTxRef ((applySuccessfulPayment
        (applySuccessfulPayment u t₁ r tid₁ a₁ s₁ e₁ p₁)
        t₂ r tid₂ a₂ s₂ e₂ p₂).paymentHistory) r
      = countTxRef u.paymentHistory r + 2 := by
  simp [applySuccessfulPayment, countTxRef, List.filter_append]

/-- A Customer document (models/Customer.js). -/
structure Customer where
  id : String
  userId : String
  name : String
  phone : String
  address : Option String
  gender : String
  photo : Option String
deriving DecidableEq

/-- An Order document (models/Order.js). -/
structure Order where
  id : String
  userId : String
  customerId : String
  clothType : String
  style : String
  fabric : String
  status : String
  stylePictures : List String
  sketches : List String
  amountCharged : Int
  amountPaid : Int
  balance : Int
deriving DecidableEq

/-- A Measurement document (models/Measurement.js). -/
structure Measurement where
  id : String
  userId : String
  customerId : String
  category : String
  photoReference : Option String
deriving DecidableEq

/-- A Notification document (models/Notification.js).  The schema field
named type is called kind here because of the Lean keyword clash. -/
structure Notif where
  id : String
  userId : String
  kind : String
  title : String
  message : String
  orderId : Option String
  customerId : Option String
  date : Int
  read : Bool
  sound : Bool
deriving DecidableEq

/-- The document store: one list per collection, plus the blob store as the
set of keys it currently holds. -/
structure Db where
  users : List User
  customers : List Customer
  orders : List Order
  measurements : List Measurement
  notifications : List Notif
  blobs : List String
deriving DecidableEq

/-- The phone normalisation used by every route: strip all non-digit
characters (phone.replace of non digits by the empty string). -/
def normalizePhone (s : String) : String := String.mk (s.toList.filter Char.isDigit)

/-- User.findOne by normalised phone. -/
def findUserByPhone (db : Db) (digits : String) : Option User :=
  db.users.find? (fun u => u.phone == digits)

/-- services/s3Service.js deleteFromS3: attempts to remove the blob behind
the given url.  Every error is caught and logged inside the function (the
source comment says not to throw), so it never signals failure; the oracle
blobFail says which deletions the external store rejects. -/
def deleteFromS3 (blobFail : String → Bool) (blobs : List String) (url : String) : List String :=
  if blobFail url then blobs else blobs.filter (fun b => b != url)

/-- The customer loop of the deletion handler: for every customer of the
tenant, best-effort delete its photo blob. -/
def deleteCustomerPhotos (blobFail : String → Bool) (uid : String) (db : Db) : Db :=
  { db with blobs := ((db.customers.filter (fun c => c.userId == uid)).foldl
      (fun bs c => match c.photo with
        | some p => deleteFromS3 blobFail bs p
        | none => bs) db.blobs) }

/-- The order loop of the deletion handler: for every order of the tenant,
best-effort delete its style pictures, then its sketches. -/
def deleteOrderImages (blobFail : String → Bool) (uid : String) (db : Db) : Db :=
  { db with blobs := ((db.orders.filter (fun o => o.userId == uid)).foldl
      (fun bs o => (o.stylePictures ++ o.sketches).foldl (deleteFromS3 blobFail) bs) db.blobs) }

/-- The measurement loop of the deletion handler: for every measurement of
the tenant, best-effort delete its photo reference. -/
def deleteMeasurementPhotos (blobFail : String → Bool) (uid : String) (db : Db) : Db :=
  { db with blobs := ((db.measurements.filter (fun m => m.userId == uid)).foldl
      (fun bs m => match m.photoReference with
        | some p => deleteFromS3 blobFail bs p
        | none => bs) db.blobs) }

/-- Failure oracles for the record deletion steps of the account deletion
handler: whether each bulk delete, and the final tenant delete, throws. -/
structure DelFailures where
  customersFail : Bool
  ordersFail : Bool
  measurementsFail : Bool
  notificationsFail : Bool
  userFail : Bool
deriving DecidableEq

/-- The inner try block of handleAccountDeletion (routes/auth.js lines 457
to 516): for customers, orders, measurements in that order, delete the
referenced blobs (best effort), then bulk delete the records of the tenant;
finally bulk delete the notifications.  An error thrown by a bulk delete is
caught by the surrounding catch, which only logs and lets the handler
continue, so on such a failure this function returns the state reached so
far and the remaining steps of the block are skipped. -/
def deleteRelatedData (f : DelFailures) (blobFail : String → Bool)
    (uid : String) (db : Db) : Db :=
  let db₁ := deleteCustomerPhotos blobFail uid db
  if f.customersFail then db₁ else
  let db₂ := { db₁ with customers := db₁.customers.filter (fun c => c.userId != uid) }
  let db₃ := deleteOrderImages blobFail uid db₂
  if f.ordersFail then db₃ else
  let db₄ := { db₃ with orders := db₃.orders.filter (fun o => o.userId != uid) }
  let db₅ := deleteMeasurementPhotos blobFail uid db₄
  if f.measurementsFail then db₅ else
  let db₆ := { db₅ with measurements := db₅.measurements.filter (fun m => m.userId != uid) }
  if f.notificationsFail then db₆ else
  { db₆ with notifications := db₆.notifications.filter (fun n => n.userId != uid) }

/-- The outcome a deletion request reports to its caller. -/
inductive DeletionResult
  | badRequest
  | notFound
  | unauthorized
  | success
  | serverError
deriving DecidableEq

/-- The deletion steps shared by both deletion entry points, after the
tenant has been resolved and authorised: run the related-data block, then
best-effort delete the profile image blob, then delete the tenant record.
Only an error of that final delete escapes to the outer catch and is
surfaced as an error response. -/
def deletionCore (f : DelFailures) (blobFail : String → Bool)
    (u : User) (db : Db) : Db × DeletionResult :=
  let db₁ := deleteRelatedData f blobFail u.id db
  let db₂ := match u.profileImage with
    | some p => { db₁ with blobs := deleteFromS3 blobFail db₁.blobs p }
    | none => db₁
  if f.userFail then (db₂, .serverError)
  else ({ db₂ with users := db₂.users.filter (fun v => v.id != u.id) }, .success)

/-- routes/auth.js handleAccountDeletion: the password protected account
deletion entry point.  The empty string models a missing (falsy) body field;
bcryptMatches models bcrypt.compare of the candidate password against the
stored hash. -/
def handleAccountDeletion (bcryptMatches : String → String → Bool)
    (f : DelFailures) (blobFail : String → Bool)
    (db : Db) (phone password : String) : Db × DeletionResult :=
  if phone == "" || password == "" then (db, .badRequest)
  else
    let digits := normalizePhone phone
    if digits.length ≠ 11 then (db, .badRequest)
    else
      match findUserByPhone db digits with
      | none => (db, .notFound)
      | some u =>
        if bcryptMatches password u.password then deletionCore f blobFail u db
        else (db, .unauthorized)

/-- Equality of the record collections of two store states, ignoring the
blob store. -/
def sameRecords (d₁ d₂ : Db) : Prop :=
  d₁.users = d₂.users ∧ d₁.customers = d₂.customers ∧ d₁.orders = d₂.orders ∧
  d₁.measurements = d₂.measurements ∧ d₁.notifications = d₂.notifications

theorem deleteRelatedData_sameRecords (f : DelFailures) (bf bf' : String → Bool)
    (uid : String) (db : Db) :
    sameRecords (deleteRelatedData f bf uid db) (deleteRelatedData f bf' uid db) := by
  obtain ⟨fc, fo, fm, fn, fu⟩ := f
  cases fc <;> cases fo <;> cases fm <;> cases fn <;>
    simp [deleteRelatedData, sameRecords, deleteCustomerPhotos, deleteOrderImages,
      deleteMeasurementPhotos]

theorem deletionCore_snd (f : DelFailures) (bf : String → Bool) (u : User) (db : Db) :
    (deletionCore f bf u db).2
      = (if f.userFail then DeletionResult.serverError else DeletionResult.success) := by
  unfold deletionCore
  cases hp : u.profileImage <;> cases hf : f.userFail <;> simp [hp, hf]

theorem deletionCore_sameRecords (f : DelFailures) (bf bf' : String → Bool)
    (u : User) (db : Db) :
    sameRecords (deletionCore f bf u db).1 (deletionCore f bf' u db).1 := by
  obtain ⟨h1, h2, h3, h4, h5⟩ := deleteRelatedData_sameRecords f bf bf' u.id db
  unfold deletionCore
  cases hp : u.profileImage <;> cases hf : f.userFail <;>
    simp [sameRecords, hp, hf, h1, h2, h3, h4, h5]

theorem deletionCore_removes_user (f : DelFailures) (bf : String → Bool)
    (u : User) (db : Db) (h : f.userFail = false) :
    ∀ v ∈ (deletionCore f bf u db).1.users, v.id ≠ u.id := by
  unfold deletionCore
  cases hp : u.profileImage <;> simp [h, hp, List.mem_filter]

theorem handleAccountDeletion_auth (bm : String → String → Bool) (f : DelFailures)
    (bf : String → Bool) (db : Db) (phone pw : String) (u : User)
    (hp : phone ≠ "") (hw : pw ≠ "")
    (hlen : (normalizePhone phone).length = 11)
    (hu : findUserByPhone db (normalizePhone phone) = some u)
    (hb : bm pw u.password = true) :
    handleAccountDeletion bm f bf db phone pw = deletionCore f bf u db := by
  simp [handleAccountDeletion, hp, hw, hlen, hu, hb]

/-- A tenant-owned customer with a photo blob, for concrete runs. -/
def sampleCustomer : Customer :=
  { id := "c1", userId := "u1", name := "Ada", phone := "08011111111"
    address := none, gender := "female", photo := some "blob-photo-1" }

/-- A store with one tenant owning one customer, for concrete runs. -/
def sampleDeletionDb : Db :=
  { users := [sampleTrialUser], customers := [sampleCustomer]
    orders := [], measurements := [], notifications := []
    blobs := ["blob-photo-1"] }

/-- The deletion handler run on sampleDeletionDb with a failing Customer
bulk delete and everything else healthy. -/
def c2Run : Db × DeletionResult :=
  handleAccountDeletion (fun p h => p == h)
    ⟨true, false, false, false, false⟩ (fun _ => false)
    sampleDeletionDb "08012345678" "hash1"

/-- C2, counterexample: a failure of the Customer bulk delete does not abort
the account deletion and does not surface an error.  On a store holding one
tenant and one customer, with the Customer deleteMany throwing and the final
tenant delete healthy, the handler still reports success and still deletes
the tenant record, while the customer records survive undeleted. -/
theorem c2_bulk_delete_failure_not_surfaced :
    c2Run.2 = DeletionResult.success ∧
    c2Run.1.customers = [sampleCustomer] ∧
    c2Run.1.users = [] := by
  decide

/-- C2, amended: in the account deletion handler, a failure of one of the
bulk record deletions (Customer, Order, Measurement or Notification) is
caught and logged, the remaining bulk deletions of that block are skipped,
and the operation continues: the tenant record is still deleted and the
caller is told success.  Only a failure of the final tenant delete aborts
the operation and surfaces an error.  A failure to delete an individual
blob never changes the record deletions or the reported outcome. -/
theorem c2_failure_policy (bm : String → String → Bool) (f : DelFailures)
    (bf bf' : String → Bool) (db : Db) (phone pw : String) (u : User)
    (hp : phone ≠ "") (hw : pw ≠ "")
    (hlen : (normalizePhone phone).length = 11)
    (hu : findUserByPhone db (normalizePhone phone) = some u)
    (hb : bm pw u.password = true) :
    (handleAccountDeletion bm f bf db phone pw).2
        = (if f.userFail then DeletionResult.serverError else DeletionResult.success)
    ∧ sameRecords (handleAccountDeletion bm f bf db phone pw).1
        (handleAccountDeletion bm f bf' db phone pw).1
    ∧ (f.userFail = false →
        ∀ v ∈ (handleAccountDeletion bm f bf db phone pw).1.users, v.id ≠ u.id) := by
  rw [handleAccountDeletion_auth bm f bf db phone pw u hp hw hlen hu hb,
      handleAccountDeletion_auth bm f bf' db phone pw u hp hw hlen hu hb]
  exact ⟨deletionCore_snd f bf u db, deletionCore_sameRecords f bf bf' u db,
    fun h => deletionCore_removes_user f bf u db h⟩

/-- C2, witness: the amended failure policy applied to the concrete store,
with the Order bulk delete failing and two distinct blob oracles. -/
theorem c2_failure_policy_witness :
    (handleAccountDeletion (fun p h => p == h)
        ⟨false, true, false, false, false⟩ (fun _ => true)
        sampleDeletionDb "08012345678" "hash1").2 = DeletionResult.success := by
  have h := c2_failure_policy (fun p h => p == h)
    ⟨false, true, false, false, false⟩ (fun _ => true) (fun _ => false)
    sampleDeletionDb "08012345678" "hash1" sampleTrialUser
    (by decide) (by decide) (by decide) (by decide) (by decide)
  exact h.1

/-- The shared route helper getUserFromPhone: normalise the phone, require
exactly 11 digits, then look the tenant up. -/
def getUserFromPhone (db : Db) (phone : String) : Option User :=
  let digits := normalizePhone phone
  if digits.length ≠ 11 then none
  else findUserByPhone db digits

/-- The response a tenant-scoped route reports. -/
inductive RouteResp (α : Type)
  | ok (a : α)
  | badRequest (msg : String)
  | notFound (msg : String)
  | forbidden (msg : String)
  | unauthorized (msg : String)
deriving DecidableEq

/-- Mongoose findOneAndUpdate: rewrite the first element matching the
filter, leave the rest untouched. -/
def updateFirst {α : Type} (l : List α) (p : α → Bool) (f : α → α) : List α :=
  match l with
  | [] => []
  | x :: xs => if p x then f x :: xs else x :: updateFirst xs p f

/-- Mongoose findOneAndDelete: remove the first element matching the
filter. -/
def removeFirst {α : Type} (l : List α) (p : α → Bool) : List α :=
  match l with
  | [] => []
  | x :: xs => if p x then xs else x :: removeFirst xs p

/-- The update payload of the customers update route, after the route has
destructured the authentication phone out of the body.  A field is some
when the client supplied it. -/
structure CustomerUpdatePayload where
  userId : Option String
  name : Option String
  address : Option String
  gender : Option String
  photo : Option String
deriving DecidableEq

/-- Application of a customer update payload.  The customers route deletes
updateData.userId before calling findOneAndUpdate (the critical line of
routes/customers.js), so the stored userId is never assigned here. -/
def applyCustomerUpdate (c : Customer) (p : CustomerUpdatePayload) : Customer :=
  { c with
    name := p.name.getD c.name
    address := (match p.address with | some a => some a | none => c.address)
    gender := p.gender.getD c.gender
    photo := (match p.photo with | some x => some x | none => c.photo) }

/-- The update payload of the orders update route. -/
structure OrderUpdatePayload where
  userId : Option String
  customerId : Option String
  clothType : Option String
  style : Option String
  fabric : Option String
  status : Option String
  amountCharged : Option Int
  amountPaid : Option Int
  balance : Option Int
deriving DecidableEq

/-- Application of an order update payload.  The orders route passes
updateData to findOneAndUpdate without removing userId, so a client
supplied userId is written to the stored record. -/
def applyOrderUpdate (o : Order) (p : OrderUpdatePayload) : Order :=
  { o with
    userId := p.userId.getD o.userId
    customerId := p.customerId.getD o.customerId
    clothType := p.clothType.getD o.clothType
    style := p.style.getD o.style
    fabric := p.fabric.getD o.fabric
    status := p.status.getD o.status
    amountCharged := p.amountCharged.getD o.amountCharged
    amountPaid := p.amountPaid.getD o.amountPaid
    balance := p.balance.getD o.balance }

/-- The update payload of the measurements update route. -/
structure MeasurementUpdatePayload where
  userId : Option String
  customerId : Option String
  category : Option String
  photoReference : Option String
deriving DecidableEq

/-- Application of a measurement update payload.  The measurements route
passes updateData to findOneAndUpdate without removing userId, so a client
supplied userId is written to the stored record. -/
def applyMeasurementUpdate (m : Measurement) (p : MeasurementUpdatePayload) : Measurement :=
  { m with
    userId := p.userId.getD m.userId
    customerId := p.customerId.getD m.customerId
    category := p.category.getD m.category
    photoReference := (match p.photoReference with | some x => some x | none => m.photoReference) }

/-- The update payload of the notifications update route (mark as read). -/
structure NotifUpdatePayload where
  userId : Option String
  read : Option Bool
  title : Option String
  message : Option String
deriving DecidableEq

/-- Application of a notification update payload.  The notifications route
passes updateData to findOneAndUpdate without removing userId. -/
def applyNotifUpdate (n : Notif) (p : NotifUpdatePayload) : Notif :=
  { n with
    userId := p.userId.getD n.userId
    read := p.read.getD n.read
    title := p.title.getD n.title
    message := p.message.getD n.message }

/-- routes/customers.js GET by id: only return the customer when both the
record id and the owning userId match the authenticated tenant. -/
def customersGetRoute (db : Db) (phone : Option String) (cid : String) : RouteResp Customer :=
  match phone with
  | none => .badRequest "Phone is required"
  | some p =>
    match getUserFromPhone db p with
    | none => .notFound "User not found"
    | some user =>
      match db.customers.find? (fun c => c.id == cid && c.userId == user.id) with
      | none => .notFound "Customer not found or does not belong to your account"
      | some c => .ok c

/-- The creation payload of the customers create route; the phone field is
both the authentication phone and the stored customer phone. -/
structure CustomerCreatePayload where
  userId : Option String
  name : String
  phone : String
  address : Option String
  gender : String
  photo : Option String
deriving DecidableEq

/-- routes/customers.js POST: any client supplied userId is deleted and the
record is saved with the authenticated tenant as owner.  The store assigns
the fresh record id.  The post-save consistency re-check of the source
always passes here and is not modelled. -/
def customersCreateRoute (db : Db) (payload : CustomerCreatePayload)
    (freshId : String) : Db × RouteResp Customer :=
  if payload.phone == "" then (db, .badRequest "Phone is required for customer creation")
  else
    match getUserFromPhone db payload.phone with
    | none => (db, .notFound "User not found. Please ensure you are logged in.")
    | some user =>
      let c : Customer :=
        { id := freshId, userId := user.id, name := payload.name
          phone := payload.phone, address := payload.address
          gender := payload.gender, photo := payload.photo }
      ({ db with customers := db.customers ++ [c] }, .ok c)

/-- routes/customers.js PUT by id. -/
def customersUpdateRoute (db : Db) (phone : Option String) (cid : String)
    (payload : CustomerUpdatePayload) : Db × RouteResp Customer :=
  match phone with
  | none => (db, .badRequest "Phone is required")
  | some p =>
    match getUserFromPhone db p with
    | none => (db, .notFound "User not found")
    | some user =>
      match db.customers.find? (fun c => c.id == cid && c.userId == user.id) with
      | none => (db, .notFound "Customer not found or does not belong to your account")
      | some c =>
        ({ db with customers := (updateFirst db.customers
            (fun x => x.id == cid && x.userId == user.id)
            (fun x => applyCustomerUpdate x payload)) },
         .ok (applyCustomerUpdate c payload))

/-- routes/customers.js DELETE by id. -/
def customersDeleteRoute (db : Db) (phone : Option String) (cid : String) :
    Db × RouteResp String :=
  match phone with
  | none => (db, .badRequest "Phone is required")
  | some p =>
    match getUserFromPhone db p with
    | none => (db, .notFound "User not found")
    | some user =>
      match db.customers.find? (fun c => c.id == cid && c.userId == user.id) with
      | none => (db, .notFound "Customer not found or does not belong to your account")
      | some _ =>
        ({ db with customers := (removeFirst db.customers
            (fun c => c.id == cid && c.userId == user.id)) },
         .ok "Customer deleted successfully")

/-- routes/orders.js GET by id. -/
def ordersGetRoute (db : Db) (phone : Option String) (oid : String) : RouteResp Order :=
  match phone with
  | none => .badRequest "Phone is required"
  | some p =>
    match getUserFromPhone db p with
    | none => .notFound "User not found"
    | some user =>
      match db.orders.find? (fun o => o.id == oid && o.userId == user.id) with
      | none => .notFound "Order not found"
      | some o => .ok o

/-- routes/orders.js GET by customer: verifies the customer belongs to the
authenticated tenant and answers 403 Forbidden, not 404, when it does not
(the same response is produced whether the customer is absent or owned by a
different tenant). -/
def ordersGetByCustomerRoute (db : Db) (phone : Option String)
    (customerId : String) : RouteResp (List Order) :=
  match phone with
  | none => .badRequest "Phone is required"
  | some p =>
    match getUserFromPhone db p with
    | none => .notFound "User not found"
    | some user =>
      match db.customers.find? (fun c => c.id == customerId && c.userId == user.id) with
      | none => .forbidden "Customer not found or does not belong to your account"
      | some _ =>
        .ok (db.orders.filter (fun o => o.customerId == customerId && o.userId == user.id))

/-- routes/orders.js PUT by id: resolve the order by id and owner, check a
changed customerId for ownership (403 on failure), then apply the payload
with findOneAndUpdate. -/
def ordersUpdateRoute (db : Db) (phone : Option String) (oid : String)
    (payload : OrderUpdatePayload) : Db × RouteResp Order :=
  match phone with
  | none => (db, .badRequest "Phone is required")
  | some p =>
    match getUserFromPhone db p with
    | none => (db, .notFound "User not found")
    | some user =>
      match db.orders.find? (fun o => o.id == oid && o.userId == user.id) with
      | none => (db, .notFound "Order not found")
      | some existing =>
        let doUpdate : Db × RouteResp Order :=
          ({ db with orders := (updateFirst db.orders
              (fun o => o.id == oid && o.userId == user.id)
              (fun o => applyOrderUpdate o payload)) },
           .ok (applyOrderUpdate existing payload))
        match payload.customerId with
        | some cid =>
          if cid != existing.customerId then
            match db.customers.find? (fun c => c.id == cid && c.userId == user.id) with
            | none => (db, .forbidden "Customer not found or does not belong to your account")
            | some _ => doUpdate
          else doUpdate
        | none => doUpdate

/-- routes/orders.js DELETE by id. -/
def ordersDeleteRoute (db : Db) (phone : Option String) (oid : String) :
    Db × RouteResp String :=
  match phone with
  | none => (db, .badRequest "Phone is required")
  | some p =>
    match getUserFromPhone db p with
    | none => (db, .notFound "User not found")
    | some user =>
      match db.orders.find? (fun o => o.id == oid && o.userId == user.id) with
      | none => (db, .notFound "Order not found")
      | some _ =>
        ({ db with orders := (removeFirst db.orders
            (fun o => o.id == oid && o.userId == user.id)) },
         .ok "Order deleted successfully")

/-- The creation payload of the measurements create route. -/
structure MeasurementCreatePayload where
  userId : Option String
  customerId : String
  category : String
  photoReference : Option String
deriving DecidableEq

/-- routes/measurements.js POST: the record is built by spreading the
client payload first and then the server side userId, so the authenticated
tenant always wins. -/
def measurementsCreateRoute (db : Db) (phone : Option String)
    (payload : MeasurementCreatePayload) (freshId : String) :
    Db × RouteResp Measurement :=
  match phone with
  | none => (db, .badRequest "Phone is required")
  | some p =>
    match getUserFromPhone db p with
    | none => (db, .notFound "User not found")
    | some user =>
      let m : Measurement :=
        { id := freshId, userId := user.id, customerId := payload.customerId
          category := payload.category, photoReference := payload.photoReference }
      ({ db with measurements := db.measurements ++ [m] }, .ok m)

/-- routes/measurements.js GET by id. -/
def measurementsGetRoute (db : Db) (phone : Option String) (mid : String) :
    RouteResp Measurement :=
  match phone with
  | none => .badRequest "Phone is required"
  | some p =>
    match getUserFromPhone db p with
    | none => .notFound "User not found"
    | some user =>
      match db.measurements.find? (fun m => m.id == mid && m.userId == user.id) with
      | none => .notFound "Measurement not found"
      | some m => .ok m

/-- routes/measurements.js PUT by id: the payload is applied unstripped. -/
def measurementsUpdateRoute (db : Db) (phone : Option String) (mid : String)
    (payload : MeasurementUpdatePayload) : Db × RouteResp Measurement :=
  match phone with
  | none => (db, .badRequest "Phone is required")
  | some p =>
    match getUserFromPhone db p with
    | none => (db, .notFound "User not found")
    | some user =>
      match db.measurements.find? (fun m => m.id == mid && m.userId == user.id) with
      | none => (db, .notFound "Measurement not found")
      | some m =>
        ({ db with measurements := (updateFirst db.measurements
            (fun x => x.id == mid && x.userId == user.id)
            (fun x => applyMeasurementUpdate x payload)) },
         .ok (applyMeasurementUpdate m payload))

/-- routes/measurements.js DELETE by id. -/
def measurementsDeleteRoute (db : Db) (phone : Option String) (mid : String) :
    Db × RouteResp String :=
  match phone with
  | none => (db, .badRequest "Phone is required")
  | some p =>
    match getUserFromPhone db p with
    | none => (db, .notFound "User not found")
    | some user =>
      match db.measurements.find? (fun m => m.id == mid && m.userId == user.id) with
      | none => (db, .notFound "Measurement not found")
      | some _ =>
        ({ db with measurements := (removeFirst db.measurements
            (fun m => m.id == mid && m.userId == user.id)) },
         .ok "Measurement deleted successfully")

/-- routes/notifications.js PUT by id (mark as read): the payload is
applied unstripped. -/
def notificationsUpdateRoute (db : Db) (phone : Option String) (nid : String)
    (payload : NotifUpdatePayload) : Db × RouteResp Notif :=
  match phone with
  | none => (db, .badRequest "Phone is required")
  | some p =>
    match getUserFromPhone db p with
    | none => (db, .notFound "User not found")
    | some user =>
      match db.notifications.find? (fun n => n.id == nid && n.userId == user.id) with
      | none => (db, .notFound "Notification not found")
      | some n =>
        ({ db with notifications := (updateFirst db.notifications
            (fun x => x.id == nid && x.userId == user.id)
            (fun x => applyNotifUpdate x payload)) },
         .ok (applyNotifUpdate n payload))

/-- The creation payload of the orders create route.  The empty customerId
string models a missing (falsy) customerId. -/
structure OrderCreatePayload where
  userId : Option String
  customerId : String
  clothType : String
  style : String
  fabric : String
  stylePictures : List String
  sketches : List String
  amountCharged : Int
  amountPaid : Int
  balance : Int
deriving DecidableEq

/-- routes/orders.js POST: when a customerId is supplied its ownership is
verified (403 on failure); the record is built by spreading the client
payload first and then the server side userId, so the authenticated tenant
always wins. -/
def ordersCreateRoute (db : Db) (phone : Option String)
    (payload : OrderCreatePayload) (freshId : String) : Db × RouteResp Order :=
  match phone with
  | none => (db, .badRequest "Phone is required")
  | some p =>
    match getUserFromPhone db p with
    | none => (db, .notFound "User not found")
    | some user =>
      let o : Order :=
        { id := freshId, userId := user.id, customerId := payload.customerId
          clothType := payload.clothType, style := payload.style
          fabric := payload.fabric, status := "pending"
          stylePictures := payload.stylePictures, sketches := payload.sketches
          amountCharged := payload.amountCharged, amountPaid := payload.amountPaid
          balance := payload.balance }
      if payload.customerId != "" then
        match db.customers.find? (fun c => c.id == payload.customerId && c.userId == user.id) with
        | none => (db, .forbidden "Customer not found or does not belong to your account")
        | some _ => ({ db with orders := db.orders ++ [o] }, .ok o)
      else ({ db with orders := db.orders ++ [o] }, .ok o)

theorem map_updateFirst {α β : Type} (l : List α) (p : α → Bool) (f : α → α)
    (g : α → β) (h : ∀ x, g (f x) = g x) :
    (updateFirst l p f).map g = l.map g := by
  induction l with
  | nil => rfl
  | cons x xs ih => unfold updateFirst; by_cases hx : p x <;> simp [hx, h, ih]

/-- A store with one tenant owning one measurement, for concrete runs. -/
def c3Db : Db :=
  { users := [sampleTrialUser], customers := [], orders := []
    measurements := [{ id := "m1", userId := "u1", customerId := "c1"
                       category := "shirt", photoReference := none }]
    notifications := [], blobs := [] }

/-- A measurement update payload carrying a client supplied userId. -/
def c3Payload : MeasurementUpdatePayload :=
  { userId := some "u2", customerId := none, category := none, photoReference := none }

/-- C3, counterexample: the measurements update route does not strip a
client supplied userId from the payload.  The tenant u1 updates their own
measurement m1 with a payload carrying userId u2, and the stored record
ends up owned by u2: the update operation changed the stored userId. -/
theorem c3_update_overwrites_owner :
    c3Db.measurements.map Measurement.userId = ["u1"] ∧
    ((measurementsUpdateRoute c3Db (some "08012345678") "m1" c3Payload).1.measurements.map
      Measurement.userId) = ["u2"] := by
  decide

/-- C3, amended: the create operations of all four tenant-scoped entities
replace any client supplied userId with the authenticated tenant id, and
the customers update route strips userId from its payload so customer
owners never change; but the orders, measurements and notifications update
routes apply the request payload unstripped, so a userId present in such an
update payload overwrites the stored owner of the record. -/
theorem c3_owner_assignment :
    (∀ (db : Db) (payload : CustomerCreatePayload) (fid : String) (user : User),
       payload.phone ≠ "" →
       getUserFromPhone db payload.phone = some user →
       (customersCreateRoute db payload fid).2 = RouteResp.ok
         { id := fid, userId := user.id, name := payload.name
           phone := payload.phone, address := payload.address
           gender := payload.gender, photo := payload.photo }) ∧
    (∀ (db : Db) (p : String) (payload : MeasurementCreatePayload) (fid : String) (user : User),
       getUserFromPhone db p = some user →
       (measurementsCreateRoute db (some p) payload fid).2 = RouteResp.ok
         { id := fid, userId := user.id, customerId := payload.customerId
           category := payload.category, photoReference := payload.photoReference }) ∧
    (∀ (db : Db) (p : String) (payload : OrderCreatePayload) (fid : String) (user : User) (o : Order),
       getUserFromPhone db p = some user →
       (ordersCreateRoute db (some p) payload fid).2 = RouteResp.ok o →
       o.userId = user.id) ∧
    (∀ (db : Db) (phone : Option String) (cid : String) (payload : CustomerUpdatePayload),
       (customersUpdateRoute db phone cid payload).1.customers.map Customer.userId
         = db.customers.map Customer.userId) ∧
    (∀ (o : Order) (p : OrderUpdatePayload) (v : String),
       p.userId = some v → (applyOrderUpdate o p).userId = v) ∧
    (∀ (m : Measurement) (p : MeasurementUpdatePayload) (v : String),
       p.userId = some v → (applyMeasurementUpdate m p).userId = v) ∧
    (∀ (n : Notif) (p : NotifUpdatePayload) (v : String),
       p.userId = some v → (applyNotifUpdate n p).userId = v) := by
  refine ⟨?_, ?_, ?_, ?_, ?_, ?_, ?_⟩
  · intro db payload fid user hne hu
    simp [customersCreateRoute, hne, hu]
  · intro db p payload fid user hu
    simp [measurementsCreateRoute, hu]
  · intro db p payload fid user o hu hok
    unfold ordersCreateRoute at hok
    simp only [hu] at hok
    cases hc : payload.customerId != "" with
    | true =>
      rw [if_pos hc] at hok
      cases hfind : db.customers.find?
          (fun c => c.id == payload.customerId && c.userId == user.id) with
      | none => rw [hfind] at hok; cases hok
      | some c =>
        rw [hfind] at hok
        simp only [RouteResp.ok.injEq] at hok
        rw [← hok]
    | false =>
      rw [if_neg (by simp [hc])] at hok
      simp only [RouteResp.ok.injEq] at hok
      rw [← hok]
  · intro db phone cid payload
    cases phone with
    | none => rfl
    | some p =>
      cases hu : getUserFromPhone db p with
      | none => simp [customersUpdateRoute, hu]
      | some user =>
        cases hfind : db.customers.find? (fun c => c.id == cid && c.userId == user.id) with
        | none => simp [customersUpdateRoute, hu, hfind]
        | some c =>
          simp only [customersUpdateRoute, hu, hfind]
          exact map_updateFirst _ _ _ _ (fun x => rfl)
  · intro o p v h; simp [applyOrderUpdate, h]
  · intro m p v h; simp [applyMeasurementUpdate, h]
  · intro n p v h; simp [applyNotifUpdate, h]

/-- C3, witness: the amended owner-assignment statement evaluated at
concrete inputs, one conjunct with its hypothesis discharged concretely. -/
theorem c3_owner_assignment_witness :
    (measurementsCreateRoute c3Db (some "08012345678")
      { userId := some "u9", customerId := "c1", category := "shirt", photoReference := none }
      "m9").2 = RouteResp.ok
        { id := "m9", userId := "u1", customerId := "c1"
          category := "shirt", photoReference := none } :=
  c3_owner_assignment.2.1 c3Db "08012345678"
    { userId := some "u9", customerId := "c1", category := "shirt", photoReference := none }
    "m9" sampleTrialUser (by decide)

theorem find?_owned_eq_none {α : Type} (l : List α) (idOf ownerOf : α → String)
    (cid uid : String) (h : ∀ x ∈ l, idOf x = cid → ownerOf x ≠ uid) :
    l.find? (fun x => idOf x == cid && ownerOf x == uid) = none := by
  apply List.find?_eq_none.mpr
  intro x hx
  simp only [Bool.and_eq_true, beq_iff_eq, not_and]
  exact fun h1 h2 => h x hx h1 h2

/-- A second tenant, owner of the records the first tenant must not see. -/
def otherUser : User :=
  { sampleTrialUser with id := "u2", phone := "08099999999", password := "hash2" }

/-- A store where customer c2 belongs to the second tenant. -/
def c4Db : Db :=
  { users := [sampleTrialUser, otherUser]
    customers := [{ id := "c2", userId := "u2", name := "Bisi", phone := "08022222222"
                    address := none, gender := "female", photo := none }]
    orders := [], measurements := [], notifications := [], blobs := [] }

/-- C4, counterexample: fetching orders by a customer id that belongs to a
different tenant answers 403 Forbidden, not NotFound.  Tenant u1 requests
the orders of customer c2, which is owned by tenant u2; the route returns
the forbidden response, so an ownership mismatch is not always reported as
NotFound. -/
theorem c4_orders_by_customer_forbidden :
    ordersGetByCustomerRoute c4Db (some "08012345678") "c2"
        = RouteResp.forbidden "Customer not found or does not belong to your account"
    ∧ ∀ msg, ordersGetByCustomerRoute c4Db (some "08012345678") "c2"
        ≠ RouteResp.notFound msg := by
  refine ⟨by decide, ?_⟩
  intro msg h
  rw [show ordersGetByCustomerRoute c4Db (some "08012345678") "c2"
        = RouteResp.forbidden "Customer not found or does not belong to your account"
      from by decide] at h
  cases h

/-- C4, amended: every id-keyed fetch, update and delete of a tenant-scoped
record filters by record id and owner jointly and reports NotFound on an
ownership mismatch, indistinguishable from an absent record — with one
exception: the orders-by-customer fetch (and the customer ownership check
of order creation) answers 403 Forbidden instead, although with the same
response whether the customer is absent or owned by another tenant, so
existence is still not leaked. -/
theorem c4_ownership_mismatch_responses :
    (∀ (db : Db) (p cid : String) (user : User),
       getUserFromPhone db p = some user →
       (∀ c ∈ db.customers, c.id = cid → c.userId ≠ user.id) →
       customersGetRoute db (some p) cid
         = RouteResp.notFound "Customer not found or does not belong to your account") ∧
    (∀ (db : Db) (p cid : String) (payload : CustomerUpdatePayload) (user : User),
       getUserFromPhone db p = some user →
       (∀ c ∈ db.customers, c.id = cid → c.userId ≠ user.id) →
       customersUpdateRoute db (some p) cid payload
         = (db, RouteResp.notFound "Customer not found or does not belong to your account")) ∧
    (∀ (db : Db) (p cid : String) (user : User),
       getUserFromPhone db p = some user →
       (∀ c ∈ db.customers, c.id = cid → c.userId ≠ user.id) →
       customersDeleteRoute db (some p) cid
         = (db, RouteResp.notFound "Customer not found or does not belong to your account")) ∧
    (∀ (db : Db) (p oid : String) (user : User),
       getUserFromPhone db p = some user →
       (∀ o ∈ db.orders, o.id = oid → o.userId ≠ user.id) →
       ordersGetRoute db (some p) oid = RouteResp.notFound "Order not found") ∧
    (∀ (db : Db) (p oid : String) (user : User),
       getUserFromPhone db p = some user →
       (∀ o ∈ db.orders, o.id = oid → o.userId ≠ user.id) →
       ordersDeleteRoute db (some p) oid = (db, RouteResp.notFound "Order not found")) ∧
    (∀ (db : Db) (p mid : String) (user : User),
       getUserFromPhone db p = some user →
       (∀ m ∈ db.measurements, m.id = mid → m.userId ≠ user.id) →
       measurementsGetRoute db (some p) mid = RouteResp.notFound "Measurement not found") ∧
    (∀ (db : Db) (p mid : String) (payload : MeasurementUpdatePayload) (user : User),
       getUserFromPhone db p = some user →
       (∀ m ∈ db.measurements, m.id = mid → m.userId ≠ user.id) →
       measurementsUpdateRoute db (some p) mid payload
         = (db, RouteResp.notFound "Measurement not found")) ∧
    (∀ (db : Db) (p mid : String) (user : User),
       getUserFromPhone db p = some user →
       (∀ m ∈ db.measurements, m.id = mid → m.userId ≠ user.id) →
       measurementsDeleteRoute db (some p) mid
         = (db, RouteResp.notFound "Measurement not found")) ∧
    (∀ (db : Db) (p nid : String) (payload : NotifUpdatePayload) (user : User),
       getUserFromPhone db p = some user →
       (∀ n ∈ db.notifications, n.id = nid → n.userId ≠ user.id) →
       notificationsUpdateRoute db (some p) nid payload
         = (db, RouteResp.notFound "Notification not found")) ∧
    (∀ (db : Db) (p cid : String) (user : User),
       getUserFromPhone db p = some user →
       (∀ c ∈ db.customers, c.id = cid → c.userId ≠ user.id) →
       ordersGetByCustomerRoute db (some p) cid
         = RouteResp.forbidden "Customer not found or does not belong to your account") := by
  refine ⟨?_, ?_, ?_, ?_, ?_, ?_, ?_, ?_, ?_, ?_⟩
  · intro db p rid user hu hown
    simp [customersGetRoute, hu, find?_owned_eq_none _ _ _ _ _ hown]
  · intro db p rid payload user hu hown
    simp [customersUpdateRoute, hu, find?_owned_eq_none _ _ _ _ _ hown]
  · intro db p rid user hu hown
    simp [customersDeleteRoute, hu, find?_owned_eq_none _ _ _ _ _ hown]
  · intro db p rid user hu hown
    simp [ordersGetRoute, hu, find?_owned_eq_none _ _ _ _ _ hown]
  · intro db p rid user hu hown
    simp [ordersDeleteRoute, hu, find?_owned_eq_none _ _ _ _ _ hown]
  · intro db p rid user hu hown
    simp [measurementsGetRoute, hu, find?_owned_eq_none _ _ _ _ _ hown]
  · intro db p rid payload user hu hown
    simp [measurementsUpdateRoute, hu, find?_owned_eq_none _ _ _ _ _ hown]
  · intro db p rid user hu hown
    simp [measurementsDeleteRoute, hu, find?_owned_eq_none _ _ _ _ _ hown]
  · intro db p rid payload user hu hown
    simp [notificationsUpdateRoute, hu, find?_owned_eq_none _ _ _ _ _ hown]
  · intro db p rid user hu hown
    simp [ordersGetByCustomerRoute, hu, find?_owned_eq_none _ _ _ _ _ hown]

/-- C4, witness: the amended response statement evaluated on the concrete
store, for the customer fetch route with the ownership hypotheses
discharged concretely. -/
theorem c4_ownership_mismatch_responses_witness :
    customersGetRoute c4Db (some "08012345678") "c2"
      = RouteResp.notFound "Customer not found or does not belong to your account" :=
  c4_ownership_mismatch_responses.1 c4Db "08012345678" "c2" sampleTrialUser
    (by decide) (by decide)

/-- The user mutation of the subscription upgrade route
(routes/subscription.js POST upgrade, lines 144 to 153): set the paid tier,
activate, store the computed paid window and clear the trial window.  The
computed window bounds are passed in, as in applySuccessfulPayment. -/
def applyUpgrade (u : User) (tier : String) (subStart subEnd : Int) : User :=
  { u with
    subscriptionType := some tier
    subscriptionStatus := some "active"
    subscriptionStartDate := some subStart
    subscriptionEndDate := some subEnd
    trialStartDate := none
    trialEndDate := none }

/-- The body of the administrator subscription update route. -/
structure AdminSubPayload where
  subscriptionType : Option String
  subscriptionStatus : Option String
  subscriptionStartDate : Option Int
  subscriptionEndDate : Option Int
deriving DecidableEq

/-- The no-tier-change branch of the administrator subscription update:
each provided field is written individually and nothing else changes; in
particular the trial dates are never touched here. -/
def adminPartialUpdate (u : User) (b : AdminSubPayload) : User :=
  { u with
    subscriptionType :=
      (match b.subscriptionType with | some t => some t | none => u.subscriptionType)
    subscriptionStatus :=
      (match b.subscriptionStatus with | some s => some s | none => u.subscriptionStatus)
    subscriptionStartDate :=
      (match b.subscriptionStartDate with | some d => some d | none => u.subscriptionStartDate)
    subscriptionEndDate :=
      (match b.subscriptionEndDate with | some d => some d | none => u.subscriptionEndDate) }

/-- routes/admin.js PUT users/:id/subscription.  When the payload carries a
subscription type different from the stored one, the route recomputes the
matching date pair (from the provided dates when present) and clears the
other pair; the status is set to active only when none was provided.
Otherwise each provided field is written individually.  The calcEnd
parameter abstracts the calendar arithmetic of the source (setDate plus 30,
setMonth plus 1 or 3, setFullYear plus 1, with rollover; the source also
mixes in the current date), given the tier, the start date and now; no
theorem depends on the value it returns. -/
def adminUpdateSubscription (calcEnd : String → Int → Int → Int) (now : Int)
    (u : User) (b : AdminSubPayload) : User :=
  match b.subscriptionType with
  | some t =>
    if some t ≠ u.subscriptionType then
      let startDate := b.subscriptionStartDate.getD now
      let u₁ := { u with subscriptionType := some t }
      let u₂ :=
        match b.subscriptionEndDate with
        | none =>
          if t == "trial" then
            { u₁ with trialStartDate := some startDate
                      trialEndDate := some (calcEnd t startDate now)
                      subscriptionStartDate := none, subscriptionEndDate := none }
          else if t == "monthly" || t == "quarterly" || t == "yearly" then
            { u₁ with subscriptionStartDate := some startDate
                      subscriptionEndDate := some (calcEnd t startDate now)
                      trialStartDate := none, trialEndDate := none }
          else u₁
        | some e =>
          if t == "trial" then
            { u₁ with trialStartDate := some startDate, trialEndDate := some e
                      subscriptionStartDate := none, subscriptionEndDate := none }
          else
            { u₁ with subscriptionStartDate := some startDate, subscriptionEndDate := some e
                      trialStartDate := none, trialEndDate := none }
      if b.subscriptionStatus.isNone then { u₂ with subscriptionStatus := some "active" }
      else u₂
    else adminPartialUpdate u b
  | none => adminPartialUpdate u b

/-- Whether the trial date pair holds any value. -/
def trialDatesPopulated (u : User) : Bool :=
  u.trialStartDate.isSome || u.trialEndDate.isSome

/-- Whether the paid subscription date pair holds any value. -/
def paidDatesPopulated (u : User) : Bool :=
  u.subscriptionStartDate.isSome || u.subscriptionEndDate.isSome

/-- Exactly one of the two date pairs holds a value. -/
def exactlyOneDatePair (u : User) : Bool :=
  trialDatesPopulated u != paidDatesPopulated u

/-- C5, counterexample: an administrator date change that does not change
the tier populates the paid pair without clearing the trial pair.  On the
sample trial tenant, whose trial dates are populated and paid dates empty,
an admin payload carrying only subscriptionEndDate leaves the record with
both pairs populated, violating the claimed invariant. -/
theorem c5_admin_date_change_breaks_invariant :
    exactlyOneDatePair sampleTrialUser = true ∧
    exactlyOneDatePair (adminUpdateSubscription (fun _ s _ => s) 0 sampleTrialUser
      { subscriptionType := none, subscriptionStatus := none
        subscriptionStartDate := none, subscriptionEndDate := some 100 }) = false := by
  decide

/-- C5, amended: the payment confirmation, the subscription upgrade and an
administrator change that switches the tier all clear the other date pair
and leave exactly one pair populated; but an administrator date change that
does not switch the tier writes the provided paid date fields without
clearing the trial pair, so the exclusivity of the two pairs is not an
invariant of every operation. -/
theorem c5_date_pair_exclusivity :
    (∀ (u : User) (tier txRef : String) (tid : Option String) (a s e p : Int),
       exactlyOneDatePair (applySuccessfulPayment u tier txRef tid a s e p) = true) ∧
    (∀ (u : User) (tier : String) (s e : Int),
       exactlyOneDatePair (applyUpgrade u tier s e) = true) ∧
    (∀ (calcEnd : String → Int → Int → Int) (now : Int) (u : User)
       (b : AdminSubPayload) (t : String),
       b.subscriptionType = some t →
       some t ≠ u.subscriptionType →
       (t = "trial" ∨ t = "monthly" ∨ t = "quarterly" ∨ t = "yearly") →
       exactlyOneDatePair (adminUpdateSubscription calcEnd now u b) = true) := by
  refine ⟨?_, ?_, ?_⟩
  · intro u tier txRef tid a s e p
    simp [exactlyOneDatePair, trialDatesPopulated, paidDatesPopulated, applySuccessfulPayment]
  · intro u tier s e
    simp [exactlyOneDatePair, trialDatesPopulated, paidDatesPopulated, applyUpgrade]
  · intro calcEnd now u b t hb hne ht
    rcases ht with rfl | rfl | rfl | rfl <;>
      cases he : b.subscriptionEndDate <;>
      cases hs : b.subscriptionStatus <;>
        simp [adminUpdateSubscription, hb, hne, he, hs,
          exactlyOneDatePair, trialDatesPopulated, paidDatesPopulated]

/-- C5, witness: the amended exclusivity statement at concrete inputs; the
administrator conjunct with its hypotheses discharged on a concrete tier
switch from trial to monthly. -/
theorem c5_date_pair_exclusivity_witness :
    exactlyOneDatePair (adminUpdateSubscription (fun _ s _ => s + 1) 0 sampleTrialUser
      { subscriptionType := some "monthly", subscriptionStatus := none
        subscriptionStartDate := none, subscriptionEndDate := none }) = true :=
  c5_date_pair_exclusivity.2.2 (fun _ s _ => s + 1) 0 sampleTrialUser
    { subscriptionType := some "monthly", subscriptionStatus := none
      subscriptionStartDate := none, subscriptionEndDate := none }
    "monthly" rfl (by decide) (by decide)

/-- The body of the subscription status response. -/
structure StatusResponse where
  subscriptionType : Option String
  subscriptionStatus : String
  trialStartDate : Option Int
  trialEndDate : Option Int
  subscriptionStartDate : Option Int
  subscriptionEndDate : Option Int
  daysRemaining : Int
deriving DecidableEq

/-- Math.max(0, Math.ceil((endDate − now) / dayMs)), the daysRemaining
computation of the status route. -/
def daysRemainingOf (endDate now : Int) : Int :=
  max 0 (jsCeilDiv (endDate - now) dayMs)

/-- The legacy initialisation of the status route for tenants without a
subscriptionType: start a trial running from createdAt (or now) for 30
days.  The setDate arithmetic of the source adds exactly 30 days. -/
def initTrial (u : User) (now : Int) : User :=
  let ts := u.createdAt.getD now
  { u with subscriptionType := some "trial", subscriptionStatus := some "active"
           trialStartDate := some ts, trialEndDate := some (ts + 30 * dayMs) }

/-- The lazy trial expiry check of the status route: when the tenant is on
trial with a trial end date, the end date has passed and the resolved
status is active, persist status expired.  Returns the stored tenant, the
resolved status and the number of save calls. -/
def evalTrialCheck (now : Int) (u : User) (s : String) : User × String × Nat :=
  if u.subscriptionType = some "trial" then
    match u.trialEndDate with
    | some te =>
      if now > te ∧ s = "active" then
        ({ u with subscriptionStatus := some "expired" }, "expired", 1)
      else (u, s, 0)
    | none => (u, s, 0)
  else (u, s, 0)

/-- The lazy paid expiry check of the status route, for tenants not on
trial with a subscription end date. -/
def evalPaidCheck (now : Int) (u : User) (s : String) : User × String × Nat :=
  if u.subscriptionType ≠ some "trial" then
    match u.subscriptionEndDate with
    | some se =>
      if now > se ∧ s = "active" then
        ({ u with subscriptionStatus := some "expired" }, "expired", 1)
      else (u, s, 0)
    | none => (u, s, 0)
  else (u, s, 0)

/-- The response body of the status route: the stored fields, the resolved
status, and daysRemaining computed from the trial end date when present
(the trial pair takes precedence), else the subscription end date, else 0. -/
def statusResponseOf (u : User) (s : String) (now : Int) : StatusResponse :=
  { subscriptionType := u.subscriptionType
    subscriptionStatus := s
    trialStartDate := u.trialStartDate
    trialEndDate := u.trialEndDate
    subscriptionStartDate := u.subscriptionStartDate
    subscriptionEndDate := u.subscriptionEndDate
    daysRemaining :=
      (match u.trialEndDate with
       | some te => daysRemainingOf te now
       | none =>
         match u.subscriptionEndDate with
         | some se => daysRemainingOf se now
         | none => 0) }

/-- routes/subscription.js GET status for a resolved tenant: legacy trial
initialisation when subscriptionType is unset, then the lazy trial and paid
expiry checks, then the response.  Returns the stored tenant after the
call, the number of save calls performed, and the response body. -/
def evaluateStatus (u : User) (now : Int) : User × Nat × StatusResponse :=
  let u₁ := if u.subscriptionType.isNone then initTrial u now else u
  let n₁ : Nat := if u.subscriptionType.isNone then 1 else 0
  let s₀ := u₁.subscriptionStatus.getD "active"
  let r₁ := evalTrialCheck now u₁ s₀
  let r₂ := evalPaidCheck now r₁.1 r₁.2.1
  (r₂.1, n₁ + r₁.2.2 + r₂.2.2, statusResponseOf r₂.1 r₂.2.1 now)

theorem daysRemainingOf_eq_zero (e n : Int) (h : e < n) : daysRemainingOf e n = 0 := by
  unfold daysRemainingOf jsCeilDiv dayMs
  omega

theorem daysRemainingOf_ge_one (e n : Int) (h : n + dayMs ≤ e) : 1 ≤ daysRemainingOf e n := by
  unfold daysRemainingOf jsCeilDiv dayMs at *
  omega

/-- The sample tenant with a cancelled stored status. -/
def cancelledTrialUser : User :=
  { sampleTrialUser with subscriptionStatus := some "cancelled" }

/-- C6, counterexample: a trial tenant whose stored subscriptionStatus is
cancelled is evaluated strictly after the trial end date, yet the response
status is the stored cancelled value, not expired: the expiry transition is
guarded by the resolved status being active. -/
theorem c6_cancelled_status_not_expired :
    cancelledTrialUser.subscriptionType = some "trial" ∧
    cancelledTrialUser.trialEndDate = some (30 * dayMs) ∧
    ¬ (evaluateStatus cancelledTrialUser (30 * dayMs + 1)).2.2.subscriptionStatus
        = "expired" := by
  decide

/-- C6, amended: for a tenant on trial with a populated trialEndDate whose
stored subscriptionStatus resolves to active (stored active or unset), the
evaluation returns status expired with daysRemaining 0 for every now
strictly after the trial end date, and status active with daysRemaining at
least 1 for every now at least one day before it; daysRemaining always
equals max(0, ceil((trialEndDate − now) / 1 day)). -/
theorem c6_trial_status_evaluation (u : User) (te now : Int)
    (htype : u.subscriptionType = some "trial")
    (hte : u.trialEndDate = some te)
    (hact : u.subscriptionStatus.getD "active" = "active") :
    (te < now →
       (evaluateStatus u now).2.2.subscriptionStatus = "expired" ∧
       (evaluateStatus u now).2.2.daysRemaining = 0) ∧
    (now + dayMs ≤ te →
       (evaluateStatus u now).2.2.subscriptionStatus = "active" ∧
       1 ≤ (evaluateStatus u now).2.2.daysRemaining) ∧
    (evaluateStatus u now).2.2.daysRemaining = daysRemainingOf te now := by
  have hnn : u.subscriptionType.isNone = false := by rw [htype]; rfl
  refine ⟨?_, ?_, ?_⟩
  · intro hlt
    constructor
    · simp [evaluateStatus, hnn, hact, evalTrialCheck, evalPaidCheck, htype, hte, hlt,
        statusResponseOf]
    · simp [evaluateStatus, hnn, hact, evalTrialCheck, evalPaidCheck, htype, hte, hlt,
        statusResponseOf, daysRemainingOf_eq_zero te now hlt]
  · intro hle
    have hnlt : ¬ te < now := by unfold dayMs at hle; omega
    constructor
    · simp [evaluateStatus, hnn, hact, evalTrialCheck, evalPaidCheck, htype, hte, hnlt,
        statusResponseOf]
    · have hone := daysRemainingOf_ge_one te now hle
      simpa [evaluateStatus, hnn, hact, evalTrialCheck, evalPaidCheck, htype, hte, hnlt,
        statusResponseOf] using hone
  · by_cases hlt : te < now <;>
      simp [evaluateStatus, hnn, hact, evalTrialCheck, evalPaidCheck, htype, hte, hlt,
        statusResponseOf]

/-- C6, witness: the amended evaluation statement on the sample trial
tenant, one day after the trial window and 29 days before its end. -/
theorem c6_trial_status_evaluation_witness :
    ((evaluateStatus sampleTrialUser (31 * dayMs)).2.2.subscriptionStatus = "expired" ∧
     (evaluateStatus sampleTrialUser (31 * dayMs)).2.2.daysRemaining = 0) ∧
    ((evaluateStatus sampleTrialUser dayMs).2.2.subscriptionStatus = "active" ∧
     1 ≤ (evaluateStatus sampleTrialUser dayMs).2.2.daysRemaining) :=
  ⟨(c6_trial_status_evaluation sampleTrialUser (30 * dayMs) (31 * dayMs)
      rfl rfl rfl).1 (by decide),
   (c6_trial_status_evaluation sampleTrialUser (30 * dayMs) dayMs
      rfl rfl rfl).2.1 (by decide)⟩

theorem evaluateStatus_typed_cases (u : User) (now : Int) (t : String)
    (ht : u.subscriptionType = some t) :
    ((evaluateStatus u now).1 = u ∧ (evaluateStatus u now).2.1 = 0) ∨
    ((evaluateStatus u now).1 = { u with subscriptionStatus := some "expired" } ∧
     (evaluateStatus u now).2.1 = 1 ∧
     u.subscriptionStatus.getD "active" = "active") := by
  have hnn : u.subscriptionType.isNone = false := by rw [ht]; rfl
  by_cases htr : u.subscriptionType = some "trial"
  · cases hte : u.trialEndDate with
    | none => left; constructor <;> simp [evaluateStatus, hnn, evalTrialCheck, evalPaidCheck, htr, hte]
    | some te =>
      by_cases hcond : now > te ∧ u.subscriptionStatus.getD "active" = "active"
      · right
        refine ⟨?_, ?_, hcond.2⟩ <;>
          simp [evaluateStatus, hnn, evalTrialCheck, evalPaidCheck, htr, hte, hcond]
      · left
        constructor <;> simp [evaluateStatus, hnn, evalTrialCheck, evalPaidCheck, htr, hte, hcond]
  · cases hse : u.subscriptionEndDate with
    | none => left; constructor <;> simp [evaluateStatus, hnn, evalTrialCheck, evalPaidCheck, htr, hse]
    | some se =>
      by_cases hcond : now > se ∧ u.subscriptionStatus.getD "active" = "active"
      · right
        refine ⟨?_, ?_, hcond.2⟩ <;>
          simp [evaluateStatus, hnn, evalTrialCheck, evalPaidCheck, htr, hse, hcond]
      · left
        constructor <;> simp [evaluateStatus, hnn, evalTrialCheck, evalPaidCheck, htr, hse, hcond]

/-- C7, confirmed: for a tenant whose subscriptionType is set, the status
evaluation performs no write when the stored status is already expired and
leaves the record unchanged; when it does write, the only stored field that
changes is subscriptionStatus, set to expired; and re-evaluating the
resulting record at the same instant changes nothing and performs no
write. -/
theorem c7_evaluation_frame (u : User) (now : Int) (h : u.subscriptionType.isSome) :
    (u.subscriptionStatus = some "expired" →
       (evaluateStatus u now).1 = u ∧ (evaluateStatus u now).2.1 = 0) ∧
    ((evaluateStatus u now).2.1 ≠ 0 →
       (evaluateStatus u now).1 = { u with subscriptionStatus := some "expired" }) ∧
    ((evaluateStatus (evaluateStatus u now).1 now).1 = (evaluateStatus u now).1 ∧
     (evaluateStatus (evaluateStatus u now).1 now).2.1 = 0) := by
  obtain ⟨t, ht⟩ := Option.isSome_iff_exists.mp h
  have master := evaluateStatus_typed_cases u now t ht
  refine ⟨?_, ?_, ?_⟩
  · intro hexp
    rcases master with ⟨h1, h2⟩ | ⟨h1, h2, h3⟩
    · exact ⟨h1, h2⟩
    · rw [hexp] at h3; simp at h3
  · intro hw
    rcases master with ⟨h1, h2⟩ | ⟨h1, h2, h3⟩
    · exact absurd h2 hw
    · exact h1
  · rcases master with ⟨h1, h2⟩ | ⟨h1, h2, h3⟩
    · rw [h1]; exact ⟨h1, h2⟩
    · have hv : ({ u with subscriptionStatus := some "expired" } : User).subscriptionType
          = some t := ht
      have masterv := evaluateStatus_typed_cases
        { u with subscriptionStatus := some "expired" } now t hv
      rcases masterv with ⟨g1, g2⟩ | ⟨g1, g2, g3⟩
      · rw [h1]; exact ⟨g1, g2⟩
      · simp at g3

/-- C7, witness: the evaluation frame statement on the sample tenant with a
stored expired status: no write happens and the record does not change. -/
theorem c7_evaluation_frame_witness :
    (evaluateStatus { sampleTrialUser with subscriptionStatus := some "expired" } 0).1
        = { sampleTrialUser with subscriptionStatus := some "expired" } ∧
    (evaluateStatus { sampleTrialUser with subscriptionStatus := some "expired" } 0).2.1 = 0 :=
  (c7_evaluation_frame { sampleTrialUser with subscriptionStatus := some "expired" } 0
    (by decide)).1 rfl

/-- The end date the expiring_soon broadcast filter uses: trialEndDate for
trial tenants, else subscriptionEndDate. -/
def relevantEndDate (u : User) : Option Int :=
  if u.subscriptionType = some "trial" then u.trialEndDate else u.subscriptionEndDate

/-- routes/admin.js broadcast, expiring_soon targeting (lines 599 to 619):
query the non-admin tenants with stored status active, then keep those
whose relevant end date lies in the inclusive window from now to now plus
seven days of milliseconds. -/
def selectExpiringSoon (users : List User) (now : Int) : List User :=
  (users.filter (fun u => !u.isAdmin && u.subscriptionStatus == some "active")).filter
    (fun u => match relevantEndDate u with
      | some e => decide (now ≤ e ∧ e ≤ now + 7 * dayMs)
      | none => false)

theorem expiring_window_pred_iff (u : User) (now : Int) :
    ((match relevantEndDate u with
      | some e => decide (now ≤ e ∧ e ≤ now + 7 * dayMs)
      | none => false) = true)
      ↔ ∃ e, relevantEndDate u = some e ∧ now ≤ e ∧ e ≤ now + 7 * dayMs := by
  cases h : relevantEndDate u <;> simp [h]

/-- A non-admin tenant on a paid plan ending delta milliseconds from now. -/
def paidUserEnding (now delta : Int) : User :=
  { sampleTrialUser with
    id := "u3"
    phone := "08033333333"
    subscriptionType := some "monthly"
    subscriptionStatus := some "active"
    trialStartDate := none
    trialEndDate := none
    subscriptionStartDate := some (now - dayMs)
    subscriptionEndDate := some (now + delta) }

/-- C8, confirmed: expiring_soon selects exactly the non-admin tenants with
stored status active whose relevant end date (trial end when on trial, else
subscription end) lies in the inclusive window from now to now plus seven
days; in particular an active paid tenant ending in three days is selected,
one ending in ten days is not, and admin tenants never are. -/
theorem c8_expiring_soon_selection (users : List User) (now : Int) (u : User) :
    (u ∈ selectExpiringSoon users now ↔
      u ∈ users ∧ u.isAdmin = false ∧ u.subscriptionStatus = some "active" ∧
      ∃ e, relevantEndDate u = some e ∧ now ≤ e ∧ e ≤ now + 7 * dayMs) ∧
    paidUserEnding now (3 * dayMs) ∈ selectExpiringSoon [paidUserEnding now (3 * dayMs)] now ∧
    paidUserEnding now (10 * dayMs) ∉ selectExpiringSoon [paidUserEnding now (10 * dayMs)] now ∧
    (∀ v ∈ selectExpiringSoon users now, v.isAdmin = false) := by
  refine ⟨?_, ?_, ?_, ?_⟩
  · simp only [selectExpiringSoon, List.mem_filter, expiring_window_pred_iff,
      Bool.and_eq_true, Bool.not_eq_true', beq_iff_eq]
    tauto
  · simp [selectExpiringSoon, List.mem_filter, paidUserEnding, relevantEndDate,
      sampleTrialUser, dayMs]
  · simp [selectExpiringSoon, List.mem_filter, paidUserEnding, relevantEndDate,
      sampleTrialUser, dayMs]
  · intro v hv
    have := (List.mem_filter.mp hv).1
    have := (List.mem_filter.mp this).2
    simp only [Bool.and_eq_true, Bool.not_eq_true'] at this
    exact this.1

/-- The counts sendPushNotifications reports. -/
structure PushResult where
  success : Nat
  failed : Nat
deriving DecidableEq

/-- services/pushNotificationService.js sendPushNotifications: one batched
request whose per-token outcomes are counted; a transport failure marks all
tokens failed; every error is caught, so the function always returns counts
and never throws.  The oracle tokenOk gives the delivery outcome per
token. -/
def sendPushNotifications (tokenOk : String → Bool) (tokens : List String) : PushResult :=
  if tokens.isEmpty then { success := 0, failed := 0 }
  else
    { success := (tokens.filter tokenOk).length
      failed := (tokens.filter (fun t => !(tokenOk t))).length }

/-- The body of the broadcast response: a human readable message and the
number of notified tenants.  The push delivery counts are only logged by
the route and do not appear here. -/
structure BroadcastResponse where
  message : String
  count : Nat
deriving DecidableEq

/-- routes/admin.js broadcast tail (lines 653 to 719): given the selected
targets, create one unread notification per target (sound enabled), then
collect the push tokens of the targets with push enabled and a registered
token and dispatch one batched push send, and answer with a message and the
target count.  Returns the created notifications, the push counts (logged
only) and the response. -/
def broadcastCore (tokenOk : String → Bool) (targets : List User)
    (title msg kind : String) (now : Int) :
    List Notif × PushResult × BroadcastResponse :=
  if targets.isEmpty then
    ([], { success := 0, failed := 0 },
     { message := "No users found for this notification type", count := 0 })
  else
    let notifs := targets.map (fun u =>
      { id := "", userId := u.id, kind := kind, title := title, message := msg
        orderId := none, customerId := none, date := now, read := false, sound := true })
    let tokens := (targets.filter (fun u =>
        u.pushNotificationEnabled && u.pushNotificationToken.isSome)).filterMap
      (fun u => u.pushNotificationToken)
    (notifs, sendPushNotifications tokenOk tokens,
     { message := "Notification sent to " ++ toString targets.length ++ " users"
       count := targets.length })

/-- A broadcast target with push notifications enabled and a token. -/
def c9Target : User :=
  { sampleTrialUser with pushNotificationToken := some "tok1" }

/-- C9, counterexample: the broadcast response does not report the push
delivery successes and failures.  Two runs on the same single target whose
push deliveries respectively all succeed and all fail produce different
push counts but byte-identical responses, so the response carries no push
delivery information. -/
theorem c9_response_lacks_push_counts :
    (broadcastCore (fun _ => true) [c9Target] "T" "M" "order_update" 0).2.2
      = (broadcastCore (fun _ => false) [c9Target] "T" "M" "order_update" 0).2.2 ∧
    (broadcastCore (fun _ => true) [c9Target] "T" "M" "order_update" 0).2.1
      ≠ (broadcastCore (fun _ => false) [c9Target] "T" "M" "order_update" 0).2.1 := by
  decide

/-- C9, amended: broadcast creates exactly one unread notification per
selected target with the given title, message and type, and answers with a
message and the count of notified tenants; push delivery outcomes change
neither the created notifications nor the response (they are only logged),
so a push failure cannot roll back or prevent the created records. -/
theorem c9_broadcast_notifications (tokenOk tokenOk' : String → Bool)
    (targets : List User) (title msg kind : String) (now : Int)
    (h : targets ≠ []) :
    (broadcastCore tokenOk targets title msg kind now).1
      = targets.map (fun u =>
          { id := "", userId := u.id, kind := kind, title := title, message := msg
            orderId := none, customerId := none, date := now, read := false
            sound := true }) ∧
    (broadcastCore tokenOk targets title msg kind now).2.2
      = { message := "Notification sent to " ++ toString targets.length ++ " users"
          count := targets.length } ∧
    (broadcastCore tokenOk targets title msg kind now).1
      = (broadcastCore tokenOk' targets title msg kind now).1 ∧
    (broadcastCore tokenOk targets title msg kind now).2.2
      = (broadcastCore tokenOk' targets title msg kind now).2.2 := by
  have hne : targets.isEmpty = false := by
    cases targets with
    | nil => exact absurd rfl h
    | cons a l => rfl
  refine ⟨?_, ?_, ?_, ?_⟩ <;> simp [broadcastCore, hne]

/-- C9, witness: the amended broadcast statement on the concrete single
target store. -/
theorem c9_broadcast_notifications_witness :
    (broadcastCore (fun _ => true) [c9Target] "T" "M" "order_update" 0).2.2
      = { message := "Notification sent to " ++ toString (1 : Nat) ++ " users"
          count := 1 } :=
  (c9_broadcast_notifications (fun _ => true) (fun _ => false) [c9Target]
    "T" "M" "order_update" 0 (by decide)).2.1

/-- A JSON value, for serialised documents. -/
inductive JVal where
  | str (s : String)
  | num (n : Int)
  | bool (b : Bool)
  | null
  | arr (elems : List JVal)
  | obj (fields : List (String × JVal))

/-- Serialisation of an optional string field. -/
def optStr : Option String → JVal
  | none => .null
  | some s => .str s

/-- Serialisation of an optional date field. -/
def optNum : Option Int → JVal
  | none => .null
  | some n => .num n

/-- Serialisation of the pendingPayment subdocument. -/
def pendingToJVal : Option PendingPayment → JVal
  | none => .null
  | some p => .obj [("txRef", .str p.txRef), ("subscriptionType", .str p.subscriptionType),
                    ("amount", .num p.amount), ("createdAt", .num p.createdAt)]

/-- Serialisation of a paymentHistory entry. -/
def paymentRecordToJVal (p : PaymentRecord) : JVal :=
  .obj [("txRef", .str p.txRef), ("transactionId", optStr p.transactionId),
        ("amount", .num p.amount), ("subscriptionType", .str p.subscriptionType),
        ("status", .str p.status), ("paidAt", .num p.paidAt)]

/-- Mongoose toObject of a user document: every schema field, the stored
credential hash included. -/
def userToObject (u : User) : List (String × JVal) :=
  [("_id", .str u.id), ("phone", .str u.phone), ("password", .str u.password),
   ("businessName", .str u.businessName), ("address", .str u.address),
   ("profileImage", optStr u.profileImage),
   ("subscriptionType", optStr u.subscriptionType),
   ("subscriptionStatus", optStr u.subscriptionStatus),
   ("trialStartDate", optNum u.trialStartDate),
   ("trialEndDate", optNum u.trialEndDate),
   ("subscriptionStartDate", optNum u.subscriptionStartDate),
   ("subscriptionEndDate", optNum u.subscriptionEndDate),
   ("pendingPayment", pendingToJVal u.pendingPayment),
   ("paymentHistory", .arr (u.paymentHistory.map paymentRecordToJVal)),
   ("pushNotificationEnabled", .bool u.pushNotificationEnabled),
   ("pushNotificationToken", optStr u.pushNotificationToken),
   ("isAdmin", .bool u.isAdmin)]

/-- models/User.js toJSON: toObject, then delete obj.password. -/
def userToJSON (u : User) : List (String × JVal) :=
  (userToObject u).filter (fun kv => kv.1 != "password")

/-- The profileImage value rewrite the routes apply to a serialised user
(convertToPublicUrl when the field holds a url); it touches no other
field. -/
def convertProfileImage (convUrl : String → String) (j : List (String × JVal)) :
    List (String × JVal) :=
  j.map (fun kv =>
    if kv.1 == "profileImage" then
      (kv.1, match kv.2 with | .str s => .str (convUrl s) | v => v)
    else kv)

/-- The pre-save hook of the user schema: when the password path was
modified, replace it with its bcrypt hash before the document is stored. -/
def hashOnSave (bcryptHash : String → String) (u : User) (passwordModified : Bool) : User :=
  if passwordModified then { u with password := bcryptHash u.password } else u

/-- routes/auth.js signup: validate, reject an existing phone, build the
new tenant with the 30 day trial window, store it (the pre-save hook hashes
the new password) and answer with its toJSON serialisation. -/
def signupRoute (bcryptHash convUrl : String → String) (db : Db)
    (businessName address phone password : String) (now : Int) (freshId : String) :
    Db × RouteResp (List (String × JVal)) :=
  if businessName == "" || address == "" || phone == "" || password == "" then
    (db, .badRequest "Business name, address, phone, and password are required")
  else
    let digits := normalizePhone phone
    if digits.length ≠ 11 then
      (db, .badRequest "Phone number must be exactly 11 digits")
    else
      match findUserByPhone db digits with
      | some _ => (db, .badRequest "User with this phone number already exists")
      | none =>
        let newUser : User :=
          { id := freshId, phone := digits, password := password
            businessName := businessName, address := address
            profileImage := none
            subscriptionType := some "trial", subscriptionStatus := some "active"
            trialStartDate := some now, trialEndDate := some (now + 30 * dayMs)
            subscriptionStartDate := none, subscriptionEndDate := none
            pendingPayment := none, paymentHistory := []
            pushNotificationEnabled := true, pushNotificationToken := none
            isAdmin := false, createdAt := some now }
        let saved := hashOnSave bcryptHash newUser true
        ({ db with users := db.users ++ [saved] },
         .ok (convertProfileImage convUrl (userToJSON saved)))

/-- routes/auth.js login: resolve by phone, compare the candidate password
against the stored hash with bcrypt, and answer the toJSON serialisation
plus the admin flag. -/
def loginRoute (bcryptCompare : String → String → Bool) (convUrl : String → String)
    (db : Db) (phone password : String) :
    RouteResp (List (String × JVal) × Bool) :=
  if phone == "" || password == "" then .badRequest "Phone and password are required"
  else
    let digits := normalizePhone phone
    if digits.length ≠ 11 then .badRequest "Phone number must be exactly 11 digits"
    else
      match findUserByPhone db digits with
      | none => .unauthorized "Invalid phone or password"
      | some u =>
        if bcryptCompare password u.password then
          .ok (convertProfileImage convUrl (userToJSON u), u.isAdmin)
        else .unauthorized "Invalid phone or password"

/-- routes/auth.js GET me: resolve by phone and answer the toJSON
serialisation. -/
def meRoute (convUrl : String → String) (db : Db) (phone : Option String) :
    RouteResp (List (String × JVal)) :=
  match phone with
  | none => .badRequest "Phone is required"
  | some p =>
    let digits := normalizePhone p
    if digits.length ≠ 11 then .badRequest "Phone number must be exactly 11 digits"
    else
      match findUserByPhone db digits with
      | none => .notFound "User not found"
      | some u => .ok (convertProfileImage convUrl (userToJSON u))

/-- routes/admin.js GET users: the non-admin tenants, serialised with the
password field stripped (select without password, composed with toJSON). -/
def adminListUsers (convUrl : String → String) (db : Db) :
    List (List (String × JVal)) :=
  (db.users.filter (fun u => !u.isAdmin)).map
    (fun u => convertProfileImage convUrl (userToJSON u))

theorem convertProfileImage_keys (convUrl : String → String)
    (j : List (String × JVal)) :
    (convertProfileImage convUrl j).map Prod.fst = j.map Prod.fst := by
  unfold convertProfileImage
  rw [List.map_map]
  apply List.map_congr_left
  intro kv _
  by_cases hk : kv.1 = "profileImage" <;> simp [Function.comp, hk]

theorem userToJSON_no_password_key (u : User) :
    "password" ∉ (userToJSON u).map Prod.fst := by
  simp [userToJSON, userToObject]

theorem userToJSON_password_independent (u : User) (p₁ p₂ : String) :
    userToJSON { u with password := p₁ } = userToJSON { u with password := p₂ } := by
  simp [userToJSON, userToObject]

/-- C10, confirmed: the stored credential never leaves the server.  The
toJSON serialisation carries no password key and is independent of the
stored password value; the pre-save hook stores only the bcrypt hash; and
the signup, login, profile read and admin user listing responses all
serialise tenants through toJSON (after the profileImage url rewrite, which
preserves the key set), so no response carries the credential. -/
theorem c10_password_never_leaves :
    (∀ u : User, "password" ∉ (userToJSON u).map Prod.fst) ∧
    (∀ (u : User) (p₁ p₂ : String),
       userToJSON { u with password := p₁ } = userToJSON { u with password := p₂ }) ∧
    (∀ (bh : String → String) (u : User),
       (hashOnSave bh u true).password = bh u.password) ∧
    (∀ (bh cv : String → String) (db : Db) (bn ad ph pw : String) (now : Int)
       (fid : String) (j : List (String × JVal)),
       (signupRoute bh cv db bn ad ph pw now fid).2 = RouteResp.ok j →
       "password" ∉ j.map Prod.fst) ∧
    (∀ (bh cv : String → String) (db : Db) (bn ad ph pw : String) (now : Int)
       (fid : String) (v : User),
       v ∈ (signupRoute bh cv db bn ad ph pw now fid).1.users →
       v ∈ db.users ∨ v.password = bh pw) ∧
    (∀ (bc : String → String → Bool) (cv : String → String) (db : Db)
       (ph pw : String) (j : List (String × JVal)) (adm : Bool),
       loginRoute bc cv db ph pw = RouteResp.ok (j, adm) →
       "password" ∉ j.map Prod.fst) ∧
    (∀ (cv : String → String) (db : Db) (ph : Option String)
       (j : List (String × JVal)),
       meRoute cv db ph = RouteResp.ok j → "password" ∉ j.map Prod.fst) ∧
    (∀ (cv : String → String) (db : Db) (j : List (String × JVal)),
       j ∈ adminListUsers cv db → "password" ∉ j.map Prod.fst) := by
  refine ⟨userToJSON_no_password_key, userToJSON_password_independent,
    ?_, ?_, ?_, ?_, ?_, ?_⟩
  · intro bh u; simp [hashOnSave]
  · intro bh cv db bn ad ph pw now fid j hok
    unfold signupRoute at hok
    split at hok
    · simp at hok
    · dsimp only at hok
      split at hok
      · simp at hok
      · split at hok
        · simp at hok
        · simp only [RouteResp.ok.injEq] at hok
          rw [← hok, convertProfileImage_keys]
          exact userToJSON_no_password_key _
  · intro bh cv db bn ad ph pw now fid v hv
    unfold signupRoute at hv
    split at hv
    · exact Or.inl hv
    · dsimp only at hv
      split at hv
      · exact Or.inl hv
      · split at hv
        · exact Or.inl hv
        · simp only [List.mem_append, List.mem_singleton] at hv
          rcases hv with h | h
          · exact Or.inl h
          · right; rw [h]; rfl
  · intro bc cv db ph pw j adm hok
    unfold loginRoute at hok
    split at hok
    · simp at hok
    · dsimp only at hok
      split at hok
      · simp at hok
      · split at hok
        · simp at hok
        · split at hok
          · simp only [RouteResp.ok.injEq, Prod.mk.injEq] at hok
            rw [← hok.1, convertProfileImage_keys]
            exact userToJSON_no_password_key _
          · simp at hok
  · intro cv db ph j hok
    unfold meRoute at hok
    split at hok
    · simp at hok
    · dsimp only at hok
      split at hok
      · simp at hok
      · split at hok
        · simp at hok
        · simp only [RouteResp.ok.injEq] at hok
          rw [← hok, convertProfileImage_keys]
          exact userToJSON_no_password_key _
  · intro cv db j hj
    obtain ⟨u, hu, rfl⟩ := List.mem_map.mp hj
    rw [convertProfileImage_keys]
    exact userToJSON_no_password_key u

/-- C10, witness: the profile read of the sample tenant on the concrete
store answers a serialisation without the password key. -/
theorem c10_password_never_leaves_witness :
    "password" ∉ ((convertProfileImage (fun s => s)
      (userToJSON sampleTrialUser)).map Prod.fst) :=
  c10_password_never_leaves.2.2.2.2.2.2.1 (fun s => s) sampleDeletionDb
    (some "08012345678")
    (convertProfileImage (fun s => s) (userToJSON sampleTrialUser)) rfl

end SmartTailor
